import Mathlib

/-!
Verification of the vigil-mcp security scanner's scan-and-sign pipeline.

We give a shallow embedding of the pipeline: the CLI scan/verify actions
(src cli, `scan` and `verify` commands), the container and process scanner
modules (`src/scanners/containers.ts`, process scanner), the risk aggregation
rules, and the key-store / signing subsystem. The crypto module
(`src/crypto/keys.ts`) and the scan orchestrator (`src/scanners/index.ts`)
are imported by the CLI but are not present in the source tree, so they are
modelled from the specification (each such definition carries a doc comment
saying so); everything else is translated from the source files.
-/

namespace Vigil

/- JSON values, as produced by the JavaScript runtime: the reports the CLI
signs and verifies are arbitrary JSON objects. Mutual inductives are used for
arrays and objects so that all functions below are structurally recursive. -/
mutual

inductive Json where
  | null : Json
  | bool (b : Bool) : Json
  | num (n : Int) : Json
  | str (s : String) : Json
  | arr (items : JsonList) : Json
  | obj (fields : JsonObj) : Json

inductive JsonList where
  | nil : JsonList
  | cons (hd : Json) (tl : JsonList) : JsonList

inductive JsonObj where
  | nil : JsonObj
  | cons (key : String) (value : Json) (tl : JsonObj) : JsonObj

end

/-- One escaped character of a JSON string literal (JSON.stringify escapes
the quote and the backslash). -/
def escapeChar (c : Char) : String :=
  if c = '"' then "\\\"" else if c = '\\' then "\\\\" else String.singleton c

/-- Body of a JSON string literal. -/
def escapeString (s : String) : String :=
  String.join (s.toList.map escapeChar)

/-- A quoted JSON string literal. -/
def quoteString (s : String) : String :=
  "\"" ++ escapeString s ++ "\""

mutual

/-- `JSON.stringify(v)` (compact form, no spacing), the canonical encoding
used by the CLI on both the signing side and the verification side. -/
def stringify : Json → String
  | .null => "null"
  | .bool true => "true"
  | .bool false => "false"
  | .num n => toString n
  | .str s => quoteString s
  | .arr items => "[" ++ stringifyList items ++ "]"
  | .obj fields => "\x7b" ++ stringifyObj fields ++ "\x7d"

/-- Comma-separated encodings of array elements. -/
def stringifyList : JsonList → String
  | .nil => ""
  | .cons x .nil => stringify x
  | .cons x tl => stringify x ++ "," ++ stringifyList tl

/-- Comma-separated `"key":value` encodings of object fields. -/
def stringifyObj : JsonObj → String
  | .nil => ""
  | .cons k v .nil => quoteString k ++ ":" ++ stringify v
  | .cons k v tl => quoteString k ++ ":" ++ stringify v ++ "," ++ stringifyObj tl

end

/-- Fields of a JSON object as an association list. -/
def JsonObj.toList : JsonObj → List (String × Json)
  | .nil => []
  | .cons k v tl => (k, v) :: tl.toList

/-- Modelled from the spec: `src/crypto/keys.ts` is not in the source tree.
A signing identity: `privateKey`/`publicKey` are opaque PEM-encoded material
for Ed25519; here both halves are opaque strings. -/
structure KeyPair where
  privateKey : String
  publicKey : String
deriving DecidableEq, Repr

/-- Modelled from the spec: the public half determined by a private half.
The derivation is injective (distinct private keys give distinct public
keys), which is all the development uses about it. -/
def publicOf (privateKey : String) : String :=
  "ed25519-pub:" ++ privateKey

/-- A keypair is well formed when its public half is the one derived from
its private half, as `generateKeyPair` guarantees. -/
def KeyPair.wf (kp : KeyPair) : Prop :=
  kp.publicKey = publicOf kp.privateKey

/-- Modelled from the spec: `src/crypto/keys.ts` (`generateKeyPair`) is not
in the source tree. Generates a fresh Ed25519 keypair; the `seed` stands for
the generator's randomness. -/
def generateKeyPair (seed : Nat) : KeyPair :=
  { privateKey := "ed25519-priv:" ++ toString seed
    publicKey := publicOf ("ed25519-priv:" ++ toString seed) }

/-- Modelled from the spec: `src/crypto/keys.ts` (`signData`) is not in the
source tree. Signs the canonical encoding with the private key; the model is
an idealized signature scheme in which a signature determines exactly the
signed message and the signer's public half. -/
def signData (data : String) (privateKey : String) : String :=
  "ed25519-sig:" ++ publicOf privateKey ++ ":" ++ data

/-- Modelled from the spec: `src/crypto/keys.ts` (`verifySignature`) is not
in the source tree. Checks a signature against a message using the supplied
public key only; true exactly when the signature was produced over this
message by the holder of this public key's private half. -/
def verifySignature (data : String) (signature : String) (publicKey : String) : Bool :=
  signature == "ed25519-sig:" ++ publicKey ++ ":" ++ data

/-- Modelled from the spec: `src/crypto/keys.ts` (`hashData`) is not in the
source tree. SHA-256 content digest of the canonical encoding; informational
only (never checked by verification). -/
def hashData (data : String) : String :=
  "sha256:" ++ data

/-- The persistent key store: the keypair file under the fixed per-user
location, or nothing when no keypair has been generated yet. -/
structure KeyStore where
  stored : Option KeyPair
deriving DecidableEq, Repr

/-- Modelled from the spec: `src/crypto/keys.ts` (`ensureKeysExist`) is not
in the source tree. If no keypair exists at the persistent location,
generates a new one (from the generator randomness `seed`) and persists it;
if a keypair already exists, loads and returns it unchanged. Returns the
keypair together with the key store left behind. -/
def ensureKeysExist (st : KeyStore) (seed : Nat) : KeyPair × KeyStore :=
  match st.stored with
  | some kp => (kp, st)
  | none => (generateKeyPair seed, { stored := some (generateKeyPair seed) })

/-- The `signature` record the CLI `scan` command attaches to every emitted
report (cli `scan` action). -/
structure SignatureRecord where
  hash : String
  signature : String
  publicKey : String
  algorithm : String
  timestamp : String
deriving DecidableEq, Repr

/-- The signed-report object emitted by the CLI `scan` command. -/
structure SignedReport where
  report : Json
  signature : SignatureRecord

/-- The CLI `scan` action's signing-and-assembly step (cli, `scan` command):
`hash`, `signature` and `publicKey` start as empty strings; when signing is
requested and the key store call succeeds they are filled in from
`JSON.stringify(report)`, and when it throws the error is caught and turned
into a warning. The signed report is assembled in both cases. Returns the
emitted report together with the warning, if any. -/
def scanAction (sign : Bool) (keyStore : Except String KeyPair) (now : String)
    (report : Json) : SignedReport × Option String :=
  let filled : String × String × String × Option String :=
    if sign then
      match keyStore with
      | .ok keys =>
        let reportJson := stringify report
        (hashData reportJson, signData reportJson keys.privateKey, keys.publicKey, none)
      | .error e => ("", "", "", some e)
    else ("", "", "", none)
  ({ report := report
     signature :=
       { hash := filled.1
         signature := filled.2.1
         publicKey := filled.2.2.1
         algorithm := "Ed25519"
         timestamp := now } },
   filled.2.2.2)

/-- Outcome of the CLI `verify` command. -/
inductive VerifyOutcome where
  | notSigned : VerifyOutcome
  | valid : VerifyOutcome
  | invalid : VerifyOutcome
deriving DecidableEq, Repr

/-- The CLI `verify` action (cli, `verify` command): a missing signature
record or a falsy (empty) `signature` field is reported as "Report is not
signed"; otherwise the signature is checked against
`JSON.stringify(report)` with the embedded public key, giving VALID or
INVALID. -/
def verifyAction (report : Json) (sig : Option SignatureRecord) : VerifyOutcome :=
  match sig with
  | none => .notSigned
  | some s =>
    if s.signature = "" then .notSigned
    else if verifySignature (stringify report) s.signature s.publicKey then .valid
    else .invalid

/-- A tool-call result of the MCP server (content payload plus the optional
`isError` flag; the flag is absent, i.e. `false`, on success). -/
structure HandlerResult where
  payload : Json
  isError : Bool

/-- The warning text of the `vigil.scan.signed` signing-failure branch. -/
def signingWarning : String :=
  "Scan completed successfully but cryptographic signing failed. Results are not tamper-evident."

/-- The signing step of the `vigil.scan.signed` MCP tool (src/index.ts,
`vigil.scan.signed` branch), entered after the scan itself succeeded: when
the external signer returns a proof, the result wraps the scan result with
the proof and `is_tamper_evident: true`; when signing throws, the error is
caught and the result still carries the full scan result, the signing error
and a warning, with `is_tamper_evident: false`, and is not marked as an
error since the scan succeeded. -/
def signedScanHandler (scanResult : Json) (signOutcome : Except String Json) :
    HandlerResult :=
  match signOutcome with
  | .ok proof =>
    { payload := Json.obj (JsonObj.cons "scan_result" scanResult
        (JsonObj.cons "cryptographic_proof" proof
          (JsonObj.cons "is_tamper_evident" (Json.bool true) JsonObj.nil)))
      isError := false }
  | .error msg =>
    { payload := Json.obj (JsonObj.cons "scan_result" scanResult
        (JsonObj.cons "signing_error" (Json.str msg)
          (JsonObj.cons "is_tamper_evident" (Json.bool false)
            (JsonObj.cons "warning" (Json.str signingWarning) JsonObj.nil))))
      isError := false }

/-- The fields of a handler payload (which is always a JSON object). -/
def HandlerResult.fields (r : HandlerResult) : List (String × Json) :=
  match r.payload with
  | .obj o => o.toList
  | _ => []

/-- Severity scale shared by all scanner modules. -/
inductive Severity where
  | critical : Severity
  | high : Severity
  | medium : Severity
  | low : Severity
deriving DecidableEq, Repr

/-- One detected issue, as aggregated by the risk aggregator. -/
structure Finding where
  description : String
  severity : Severity
deriving DecidableEq, Repr

/-- The overall risk verdict of a report. -/
inductive RiskLevel where
  | CRITICAL : RiskLevel
  | HIGH : RiskLevel
  | MEDIUM : RiskLevel
  | LOW : RiskLevel
  | CLEAN : RiskLevel
deriving DecidableEq, Repr

/-- Modelled from the spec: `src/scanners/index.ts` (the risk aggregator) is
not in the source tree. The strict severity-dominance rule: `CRITICAL` if
the critical count is positive, else `HIGH` if the high count is positive,
else `MEDIUM`, else `LOW`, else `CLEAN`. -/
def riskLevelOf (critical high medium low : Nat) : RiskLevel :=
  if 0 < critical then .CRITICAL
  else if 0 < high then .HIGH
  else if 0 < medium then .MEDIUM
  else if 0 < low then .LOW
  else .CLEAN

/-- The derived summary of a report. -/
structure Summary where
  totalIssues : Nat
  criticalIssues : Nat
  highIssues : Nat
  mediumIssues : Nat
  lowIssues : Nat
  riskLevel : RiskLevel
deriving DecidableEq, Repr

/-- Modelled from the spec: `src/scanners/index.ts` (the risk aggregator of
`runFullScan`) is not in the source tree. The summary is derived purely from
the findings of all domains: `totalIssues` is the count of all findings, the
per-severity counts are the counts at each severity, and `riskLevel` is the
dominance rule applied to the counts. -/
def computeSummary (findings : List Finding) : Summary :=
  let critical := (findings.filter (fun f => f.severity == .critical)).length
  let high := (findings.filter (fun f => f.severity == .high)).length
  let medium := (findings.filter (fun f => f.severity == .medium)).length
  let low := (findings.filter (fun f => f.severity == .low)).length
  { totalIssues := findings.length
    criticalIssues := critical
    highIssues := high
    mediumIssues := medium
    lowIssues := low
    riskLevel := riskLevelOf critical high medium low }

/-- `pat` occurs at the head of some suffix of `l`. -/
def infixCheck (pat : List Char) : List Char → Bool
  | [] => pat.isPrefixOf []
  | c :: rest => pat.isPrefixOf (c :: rest) || infixCheck pat rest

/-- `pat` occurs as a substring of `s` (JavaScript `String.includes` and an
unanchored literal regex test). -/
def containsSubstr (s pat : String) : Bool :=
  infixCheck pat.toList s.toList

/-- A JavaScript regex word character, `[A-Za-z0-9_]`. -/
def isWordChar (c : Char) : Bool :=
  c.isAlphanum || c = '_'

/-- The literal `pat` matches at the head of `l`, with a `\b` word boundary
on each side; `prev` is the character just before `l`, if any. -/
def boundaryMatchAt (pat : List Char) (prev : Option Char) (l : List Char) : Bool :=
  pat.isPrefixOf l &&
    (match prev with
     | none => true
     | some c => !isWordChar c) &&
    (match l.drop pat.length with
     | [] => true
     | c :: _ => !isWordChar c)

/-- Scan every position of `l` for a word-boundary match of `pat`. -/
def boundaryScan (pat : List Char) (prev : Option Char) : List Char → Bool
  | [] => boundaryMatchAt pat prev []
  | c :: rest => boundaryMatchAt pat prev (c :: rest) || boundaryScan pat (some c) rest

/-- The regex `new RegExp("\\b" + port + "\\b")` tested against `s`
(src/scanners/containers.ts, dangerous-port check). -/
def testWordBoundary (port : String) (s : String) : Bool :=
  boundaryScan port.toList none s.toList

/-- One issue attached to a container (src/scanners/containers.ts,
`ContainerInfo.issues`). -/
structure ContainerIssue where
  description : String
  severity : Severity
deriving DecidableEq, Repr

/-- `ContainerInfo` of src/scanners/containers.ts. -/
structure ContainerInfo where
  id : String
  name : String
  image : String
  status : String
  ports : String
  issues : List ContainerIssue
deriving DecidableEq, Repr

/-- `ContainerScanResult` of src/scanners/containers.ts. -/
structure ContainerScanResult where
  dockerAvailable : Bool
  containers : List ContainerInfo
  totalContainers : Nat
deriving DecidableEq, Repr

/-- The ambient Docker runtime as the scanner observes it: the outcome of
`docker --version`, of `docker ps -a --format ...`, and of
`docker inspect <id> --format ...` per container id; `.error` is a thrown
`exec` failure (missing binary, non-zero exit, timeout). -/
structure DockerEnv where
  version : Except String String
  ps : Except String String
  inspect : String → Except String String

/-- The dangerous-port table of src/scanners/containers.ts. -/
def dangerousPorts : List String :=
  ["21", "23", "3306", "5432", "6379", "27017"]

/-- The privileged-mode check of `listContainers`: `docker inspect` on the
container id; a thrown inspect is caught and skipped. -/
def privilegedIssues (env : DockerEnv) (id : String) : List ContainerIssue :=
  match env.inspect id with
  | .ok out =>
    if out.trim = "true" then
      [{ description := "Container running in privileged mode", severity := .high }]
    else []
  | .error _ => []

/-- The exposed-port checks of `listContainers`: all-interface bindings are
medium, each dangerous port matched with word boundaries is high. -/
def portIssues (ports : String) : List ContainerIssue :=
  if ports != "" && ports.trim != "" && ports != "" then
    (if containsSubstr ports "0.0.0.0:" || containsSubstr ports ":::" then
      [{ description := "Container has ports exposed to all interfaces", severity := .medium }]
    else []) ++
    dangerousPorts.filterMap (fun port =>
      if testWordBoundary port ports then
        some { description := "Dangerous port " ++ port ++ " exposed", severity := Severity.high }
      else none)
  else []

/-- One line of the `docker ps` output turned into a `ContainerInfo`
(src/scanners/containers.ts, loop body of `listContainers`): the line is
split on `|`, missing or empty fields fall back to `unknown` (`none` for
ports), the id is truncated to 12 characters, and the issues are the
privileged-mode and port checks. -/
def processLine (env : DockerEnv) (line : String) : ContainerInfo :=
  let parts := line.splitOn "|"
  let id := parts.getD 0 ""
  let name := parts.getD 1 ""
  let image := parts.getD 2 ""
  let status := parts.getD 3 ""
  let ports := parts.getD 4 ""
  { id := if id.take 12 = "" then "unknown" else id.take 12
    name := if name = "" then "unknown" else name
    image := if image = "" then "unknown" else image
    status := if status = "" then "unknown" else status
    ports := if ports = "" then "none" else ports
    issues := privilegedIssues env id ++ portIssues ports }

/-- `listContainers` of src/scanners/containers.ts: lists all containers
via `docker ps -a`; a thrown listing is caught and yields the containers
collected so far (none). Lines whose trim is empty are filtered out. -/
def listContainers (env : DockerEnv) : List ContainerInfo :=
  match env.ps with
  | .error _ => []
  | .ok stdout =>
    ((stdout.splitOn "\n").filter (fun l => l.trim != "")).map (processLine env)

/-- `scanContainers` of src/scanners/containers.ts: probes the runtime with
`docker --version`; on success lists the containers, and a thrown probe is
caught and reported as `dockerAvailable: false` with no containers. The
function is total: no failure of the environment escapes it. -/
def scanContainers (env : DockerEnv) : ContainerScanResult :=
  match env.version with
  | .ok _ =>
    let containers := listContainers env
    { dockerAvailable := true
      containers := containers
      totalContainers := containers.length }
  | .error _ =>
    { dockerAvailable := false
      containers := []
      totalContainers := 0 }

/-- One entry of `secretsInEnv` (src process scanner,
`scanEnvironmentVariables`). -/
structure SecretEntry where
  pid : String
  command : String
  secret : String
  type : String
deriving DecidableEq, Repr

/-- `SECRET_PATTERNS` of the process scanner: case-insensitive literal
regexes paired with the reported secret type. -/
def SECRET_PATTERNS : List (String × String) :=
  [("AWS_ACCESS_KEY", "AWS Access Key"),
   ("AWS_SECRET", "AWS Secret"),
   ("GITHUB_TOKEN", "GitHub Token"),
   ("API_KEY", "API Key"),
   ("PASSWORD", "Password"),
   ("SECRET", "Secret"),
   ("TOKEN", "Token"),
   ("PRIVATE_KEY", "Private Key")]

/-- A case-insensitive literal regex test (`/PAT/i.test(key)`): both sides
are lowercased character-wise and the pattern is searched as a substring. -/
def patternTest (pat key : String) : Bool :=
  infixCheck (pat.toList.map Char.toLower) (key.toList.map Char.toLower)

/-- `scanEnvironmentVariables` of the process scanner: walks the scanning
process's own environment (`process.env`, passed here as `env`, with the
scanner's own `pid`) and reports, for each variable whose name matches a
secret pattern and whose value is truthy, one entry with the scanner's own
pid, the fixed command tag, the variable name and the first matching
pattern's type. No other process's environment is consulted. -/
def scanEnvironmentVariables (pid : Nat) (env : List (String × String)) :
    List SecretEntry :=
  env.filterMap fun kv =>
    match SECRET_PATTERNS.find? (fun pt => patternTest pt.1 kv.1 && kv.2 != "") with
    | some pt =>
      some { pid := toString pid
             command := "current-process"
             secret := kv.1
             type := pt.2 }
    | none => none

/-- A small concrete report used to instantiate the theorems below. -/
def sampleReport : Json :=
  Json.obj (JsonObj.cons "hostname" (Json.str "host-a")
    (JsonObj.cons "totalIssues" (Json.num 1) JsonObj.nil))

/-- `sampleReport` with one field value changed. -/
def tamperedReport : Json :=
  Json.obj (JsonObj.cons "hostname" (Json.str "host-b")
    (JsonObj.cons "totalIssues" (Json.num 1) JsonObj.nil))

/-- A concrete finding list with one critical finding. -/
def criticalFindings : List Finding :=
  [{ description := "Bash reverse shell", severity := Severity.critical }]

/-- A concrete environment in which the Docker probe throws. -/
def offlineDocker : DockerEnv :=
  { version := Except.error "docker: command not found"
    ps := Except.error "docker: command not found"
    inspect := fun _ => Except.error "docker: command not found" }

/-- A concrete process environment with one matching secret name. -/
def sampleEnv : List (String × String) :=
  [("MY_API_KEY", "abc"), ("HOME", "/root")]

/-- The entry `scanEnvironmentVariables` reports for `sampleEnv`. -/
def sampleEntry : SecretEntry :=
  { pid := "42", command := "current-process", secret := "MY_API_KEY", type := "API Key" }

/- ------------------------------------------------------------------ -/
/- Theorems.                                                          -/
/- ------------------------------------------------------------------ -/

/-- Left cancellation of string concatenation. -/
theorem string_append_left_cancel (a b c : String) (h : a ++ b = a ++ c) : b = c := by
  have hd : (a ++ b).data = (a ++ c).data := by rw [h]
  simp [String.data_append] at hd
  exact String.ext hd

/-- A produced signature is never the empty string. -/
theorem signData_ne_empty (d k : String) : signData d k ≠ "" := by
  intro h
  have hd : (signData d k).length = (0 : Nat) := by rw [h]; rfl
  simp [signData, String.length_append] at hd
  exact absurd hd.1.1.1 (by decide)

/-- A signature verifies against the data it was produced over, under the
keypair's own public half. -/
theorem verify_of_sign (d : String) (kp : KeyPair) (hkp : kp.wf) :
    verifySignature d (signData d kp.privateKey) kp.publicKey = true := by
  simp [verifySignature, signData, KeyPair.wf] at *
  rw [hkp]

/-- A signature fails to verify against any data other than the data it was
produced over. -/
theorem verify_tamper_core (d dt : String) (kp : KeyPair) (hkp : kp.wf) (hne : dt ≠ d) :
    verifySignature dt (signData d kp.privateKey) kp.publicKey = false := by
  rw [KeyPair.wf] at hkp
  simp [verifySignature, signData, hkp, beq_eq_false_iff_ne]
  intro h
  exact hne ((string_append_left_cancel _ _ _ h.symm))

/-- C1: round-trip signing. For any report `R` and any well-formed keypair
`K`, verifying the signature produced by `signData` over the canonical
encoding `JSON.stringify(R)`, using `K`'s public key, returns true; and the
CLI `verify` action accepts the signature record that the CLI `scan` action
attaches when signing succeeds, since both sides compute the same canonical
encoding of `R`. -/
theorem sign_verify_roundtrip (kp : KeyPair) (hkp : kp.wf) (R : Json) (now : String) :
    verifySignature (stringify R) (signData (stringify R) kp.privateKey) kp.publicKey = true ∧
    verifyAction R (some ((scanAction true (Except.ok kp) now R).1.signature)) =
      VerifyOutcome.valid := by
  refine ⟨verify_of_sign _ kp hkp, ?_⟩
  simp [scanAction, verifyAction, signData_ne_empty, verify_of_sign _ kp hkp]

/-- Witness for C1 at a concrete keypair and report. -/
theorem sign_verify_roundtrip_witness :
    (generateKeyPair 0).wf ∧
    (verifySignature (stringify sampleReport)
        (signData (stringify sampleReport) (generateKeyPair 0).privateKey)
        (generateKeyPair 0).publicKey = true ∧
      verifyAction sampleReport
        (some ((scanAction true (Except.ok (generateKeyPair 0)) "t0" sampleReport).1.signature)) =
        VerifyOutcome.valid) :=
  ⟨rfl, sign_verify_roundtrip (generateKeyPair 0) rfl sampleReport "t0"⟩

/-- C2: tamper sensitivity. For any report `R` signed under a well-formed
keypair and any report `Rt` whose canonical encoding differs from `R`'s,
verification of `Rt` against `R`'s signature returns false: verification
accepts only the exact canonical encoding that was signed. -/
theorem verify_tamper (kp : KeyPair) (hkp : kp.wf) (R Rt : Json)
    (hne : stringify Rt ≠ stringify R) :
    verifySignature (stringify Rt) (signData (stringify R) kp.privateKey) kp.publicKey =
      false :=
  verify_tamper_core _ _ kp hkp hne

/-- Witness for C2 at a concrete keypair and a report with one field value
changed. -/
theorem verify_tamper_witness :
    ((generateKeyPair 0).wf ∧ stringify tamperedReport ≠ stringify sampleReport) ∧
    verifySignature (stringify tamperedReport)
      (signData (stringify sampleReport) (generateKeyPair 0).privateKey)
      (generateKeyPair 0).publicKey = false :=
  ⟨⟨rfl, by decide⟩,
    verify_tamper (generateKeyPair 0) rfl sampleReport tamperedReport (by decide)⟩

/-- C3: risk-level dominance. For every summary derived from a finding
list, `riskLevel` is `CRITICAL` when the critical count is positive, else
`HIGH` when the high count is positive, else `MEDIUM`, else `LOW`, else
`CLEAN`; in particular at least one critical finding forces `CRITICAL`, and
an empty finding list gives `CLEAN`. -/
theorem riskLevel_dominance (findings : List Finding) :
    (0 < (computeSummary findings).criticalIssues →
      (computeSummary findings).riskLevel = RiskLevel.CRITICAL) ∧
    ((computeSummary findings).criticalIssues = 0 →
      0 < (computeSummary findings).highIssues →
      (computeSummary findings).riskLevel = RiskLevel.HIGH) ∧
    ((computeSummary findings).criticalIssues = 0 →
      (computeSummary findings).highIssues = 0 →
      0 < (computeSummary findings).mediumIssues →
      (computeSummary findings).riskLevel = RiskLevel.MEDIUM) ∧
    ((computeSummary findings).criticalIssues = 0 →
      (computeSummary findings).highIssues = 0 →
      (computeSummary findings).mediumIssues = 0 →
      0 < (computeSummary findings).lowIssues →
      (computeSummary findings).riskLevel = RiskLevel.LOW) ∧
    ((computeSummary findings).criticalIssues = 0 →
      (computeSummary findings).highIssues = 0 →
      (computeSummary findings).mediumIssues = 0 →
      (computeSummary findings).lowIssues = 0 →
      (computeSummary findings).riskLevel = RiskLevel.CLEAN) ∧
    ((∃ f ∈ findings, f.severity = Severity.critical) →
      (computeSummary findings).riskLevel = RiskLevel.CRITICAL) ∧
    (findings = [] → (computeSummary findings).riskLevel = RiskLevel.CLEAN) := by
  simp only [computeSummary]
  refine ⟨?_, ?_, ?_, ?_, ?_, ?_, ?_⟩
  · intro h; simp [riskLevelOf, h]
  · intro hc hh; simp [riskLevelOf, hc, hh]
  · intro hc hh hm; simp [riskLevelOf, hc, hh, hm]
  · intro hc hh hm hl; simp [riskLevelOf, hc, hh, hm, hl]
  · intro hc hh hm hl; simp [riskLevelOf, hc, hh, hm, hl]
  · rintro ⟨f, hf, hsev⟩
    have hmem : f ∈ findings.filter (fun g => g.severity == Severity.critical) :=
      List.mem_filter.mpr ⟨hf, by simp [hsev]⟩
    have hpos : 0 < (findings.filter (fun g => g.severity == Severity.critical)).length :=
      List.length_pos.mpr (List.ne_nil_of_mem hmem)
    simp [riskLevelOf, hpos]
  · intro h; subst h; simp [riskLevelOf]

/-- Witness for C3 at a finding list with one critical finding and at the
empty finding list. -/
theorem riskLevel_dominance_witness :
    (0 < (computeSummary criticalFindings).criticalIssues ∧
      (computeSummary criticalFindings).riskLevel = RiskLevel.CRITICAL) ∧
    (computeSummary []).riskLevel = RiskLevel.CLEAN :=
  ⟨⟨by decide, (riskLevel_dominance criticalFindings).1 (by decide)⟩,
    (riskLevel_dominance []).2.2.2.2.2.2 rfl⟩

/-- C4: summary consistency. For every finding list, the derived summary's
`totalIssues` equals the sum of the four per-severity counts; the summary is
computed from the findings alone. -/
theorem totalIssues_eq_sum (findings : List Finding) :
    (computeSummary findings).totalIssues =
      (computeSummary findings).criticalIssues + (computeSummary findings).highIssues +
        (computeSummary findings).mediumIssues + (computeSummary findings).lowIssues := by
  simp only [computeSummary]
  induction findings with
  | nil => rfl
  | cons f tl ih =>
    cases h : f.severity <;> simp [List.filter_cons, h] <;> omega

/-- C5: key-store idempotence. When a keypair already exists at the
persistent location, `ensureKeysExist` loads and returns it unchanged; and
two calls in sequence return the identical keypair and leave the identical
store, so an existing identity is never silently regenerated or rotated. -/
theorem ensureKeysExist_idempotent :
    (∀ (st : KeyStore) (kp : KeyPair) (seed : Nat),
      st.stored = some kp → ensureKeysExist st seed = (kp, st)) ∧
    (∀ (st : KeyStore) (seed1 seed2 : Nat),
      (ensureKeysExist (ensureKeysExist st seed1).2 seed2).1 =
        (ensureKeysExist st seed1).1 ∧
      (ensureKeysExist (ensureKeysExist st seed1).2 seed2).2 =
        (ensureKeysExist st seed1).2) := by
  constructor
  · intro st kp seed h
    simp [ensureKeysExist, h]
  · intro st seed1 seed2
    obtain ⟨stored⟩ := st
    cases stored <;> simp [ensureKeysExist]

/-- Witness for C5 at a concrete populated key store. -/
theorem ensureKeysExist_idempotent_witness :
    ensureKeysExist { stored := some (generateKeyPair 7) } 9 =
      (generateKeyPair 7, { stored := some (generateKeyPair 7) }) :=
  ensureKeysExist_idempotent.1 { stored := some (generateKeyPair 7) } (generateKeyPair 7) 9
    rfl

/-- C6: container-module unavailability. Whenever the Docker probe
(`docker --version`) throws, `scanContainers` returns exactly
`dockerAvailable: false` with no containers; the embedding is a total
function of the environment, so no failure escapes the scanner. -/
theorem scanContainers_unavailable (env : DockerEnv) (e : String)
    (h : env.version = Except.error e) :
    scanContainers env =
      { dockerAvailable := false, containers := [], totalContainers := 0 } := by
  simp [scanContainers, h]

/-- Witness for C6 at a concrete offline environment. -/
theorem scanContainers_unavailable_witness :
    offlineDocker.version = Except.error "docker: command not found" ∧
    scanContainers offlineDocker =
      { dockerAvailable := false, containers := [], totalContainers := 0 } :=
  ⟨rfl, scanContainers_unavailable offlineDocker "docker: command not found" rfl⟩

/-- C7: graceful signing degradation. When the scan succeeded and signing
throws, the `vigil.scan.signed` handler still returns the complete scan
result together with the signing error and a warning, is not marked as an
error, and fabricates no cryptographic proof. -/
theorem signedScanHandler_degrades (scanResult : Json) (err : String) :
    (signedScanHandler scanResult (Except.error err)).isError = false ∧
    ("scan_result", scanResult) ∈ (signedScanHandler scanResult (Except.error err)).fields ∧
    ("warning", Json.str signingWarning) ∈
      (signedScanHandler scanResult (Except.error err)).fields ∧
    ("signing_error", Json.str err) ∈
      (signedScanHandler scanResult (Except.error err)).fields ∧
    ("is_tamper_evident", Json.bool false) ∈
      (signedScanHandler scanResult (Except.error err)).fields ∧
    (∀ proof, ("cryptographic_proof", proof) ∉
      (signedScanHandler scanResult (Except.error err)).fields) := by
  simp [signedScanHandler, HandlerResult.fields, JsonObj.toList]

/-- C8: verification failure taxonomy. The CLI `verify` action reports "not
signed" exactly for a missing signature record or an empty signature field,
and "invalid" exactly for a present, non-empty signature that does not
verify against the report's canonical encoding; the two negative outcomes
are distinct. -/
theorem verifyAction_taxonomy (report : Json) (sig : Option SignatureRecord) :
    (verifyAction report sig = VerifyOutcome.notSigned ↔
      sig = none ∨ ∃ s, sig = some s ∧ s.signature = "") ∧
    (verifyAction report sig = VerifyOutcome.invalid ↔
      ∃ s, sig = some s ∧ s.signature ≠ "" ∧
        verifySignature (stringify report) s.signature s.publicKey = false) ∧
    VerifyOutcome.notSigned ≠ VerifyOutcome.invalid := by
  refine ⟨?_, ?_, by decide⟩ <;>
  · cases sig with
    | none => simp [verifyAction]
    | some s =>
      by_cases h : s.signature = "" <;>
        by_cases hv : verifySignature (stringify report) s.signature s.publicKey <;>
          simp [verifyAction, h, hv]

/-- C9: environment-scan boundary. Every entry reported by
`scanEnvironmentVariables` carries the scanning process's own pid, the
fixed command tag, and the name of a variable of the scanning process's own
environment with a truthy value matching one of the fixed secret-name
patterns; no other process's environment enters the computation. -/
theorem scanEnvironmentVariables_boundary (pid : Nat) (env : List (String × String))
    (entry : SecretEntry) (h : entry ∈ scanEnvironmentVariables pid env) :
    entry.pid = toString pid ∧
    entry.command = "current-process" ∧
    (∃ v, (entry.secret, v) ∈ env ∧ v ≠ "") ∧
    ∃ pt ∈ SECRET_PATTERNS, patternTest pt.1 entry.secret = true ∧ entry.type = pt.2 := by
  rw [scanEnvironmentVariables, List.mem_filterMap] at h
  obtain ⟨kv, hkv, hf⟩ := h
  cases hfind : SECRET_PATTERNS.find? (fun pt => patternTest pt.1 kv.1 && kv.2 != "") with
  | none => rw [hfind] at hf; exact absurd hf (by simp)
  | some pt =>
    rw [hfind] at hf
    have hpred := List.find?_some hfind
    have hmem := List.mem_of_find?_eq_some hfind
    simp only [Bool.and_eq_true, bne_iff_ne, ne_eq] at hpred
    obtain ⟨hpt, hval⟩ := hpred
    simp only [Option.some.injEq] at hf
    subst hf
    exact ⟨rfl, rfl, ⟨kv.2, by simpa using hkv, hval⟩, pt, hmem, hpt, rfl⟩

/-- Witness for C9 at a concrete environment with one matching variable. -/
theorem scanEnvironmentVariables_boundary_witness :
    sampleEntry ∈ scanEnvironmentVariables 42 sampleEnv ∧
    (sampleEntry.pid = toString 42 ∧
      sampleEntry.command = "current-process" ∧
      (∃ v, (sampleEntry.secret, v) ∈ sampleEnv ∧ v ≠ "") ∧
      ∃ pt ∈ SECRET_PATTERNS, patternTest pt.1 sampleEntry.secret = true ∧
        sampleEntry.type = pt.2) :=
  ⟨by decide, scanEnvironmentVariables_boundary 42 sampleEnv sampleEntry (by decide)⟩

/-- C10: unsigned reports still carry a signature record. With signing
skipped, or with signing requested but the key store throwing, the CLI
emits a signature record whose hash, signature and public key are the empty
string while the algorithm is Ed25519 and the timestamp is the current
instant, together with the full report (and the caught error as the
warning); the CLI `verify` action classifies exactly this record as "not
signed". -/
theorem unsigned_report_signature_record (report : Json) (keyStore : Except String KeyPair)
    (now : String) (e : String) :
    ((scanAction false keyStore now report).1.signature =
      { hash := "", signature := "", publicKey := "", algorithm := "Ed25519",
        timestamp := now }) ∧
    ((scanAction false keyStore now report).1.report = report) ∧
    ((scanAction true (Except.error e) now report).1.signature =
      { hash := "", signature := "", publicKey := "", algorithm := "Ed25519",
        timestamp := now }) ∧
    ((scanAction true (Except.error e) now report).2 = some e) ∧
    (verifyAction report
        (some { hash := "", signature := "", publicKey := "", algorithm := "Ed25519",
                timestamp := now }) = VerifyOutcome.notSigned) := by
  refine ⟨rfl, rfl, rfl, rfl, ?_⟩
  simp [verifyAction]

end Vigil
